import Mathlib

/-!
Verification of the double-pendulum simulation core (`src/main.py`).

The class `DoublePendulum` is embedded shallowly over an arbitrary field,
with the circle constant and the sine/cosine functions passed explicitly so
that every definition stays computable; theorems instantiate them with
`Real.pi`, `Real.sin` and `Real.cos`.  The state vector is the 4-tuple
(θ1, ω1, θ2, ω2), exactly as the numpy array `self.state` is indexed by the
source.  The parameter 5-tuple is stored in the order `__init__` stores it:
`self.params = (l1, l2, m1, m2, g)`.  Each method unpacks that tuple exactly
as the corresponding Python method does — in particular `dstate_dt` unpacks
it as `(M1, M2, L1, L2, G)`, reproducing the source's ordering faithfully.
The external ODE solver invoked by `step` (scipy's `odeint`) is abstracted
as an explicit function argument; `step`'s own bookkeeping (the state
overwrite and `self.time_elapsed += dt`) is embedded directly.
-/

/-- Two-element running sum, mirroring `np.cumsum` on a 2-element list. -/
def cumsum2 {α : Type} [Field α] (a b : α) : α × α :=
  (a, a + b)

/-- Three-element running sum, mirroring `np.cumsum` on a 3-element list. -/
def cumsum3 {α : Type} [Field α] (a b c : α) : α × α × α :=
  (a, a + b, a + b + c)

/-- The simulation object: the fields `__init__` assigns, in order.
`init_state` keeps the raw (degree) input, `params` is the positional tuple
`(l1, l2, m1, m2, g)`, and `state` is the radian state (θ1, ω1, θ2, ω2). -/
structure DoublePendulum (α : Type) where
  init_state : α × α × α × α
  params : α × α × α × α × α
  origin : α × α
  time_elapsed : α
  state : α × α × α × α

/-- The constructor `DoublePendulum.__init__`: a missing initial state
defaults to `[120, 0, -20, 0]`; all four components of the initial state are
multiplied by `pi / 180` (`self.state = self.init_state * np.pi / 180.`);
the parameters are stored positionally as `(l1, l2, m1, m2, g)`;
`time_elapsed` starts at 0.  `pi` is the circle constant `np.pi`. -/
def DoublePendulum.init {α : Type} [Field α] (pi : α)
    (istate : Option (α × α × α × α))
    (l1 l2 m1 m2 g : α) (origin : α × α) : DoublePendulum α :=
  let is0 := istate.getD (120, 0, -20, 0)
  { init_state := is0
    params := (l1, l2, m1, m2, g)
    origin := origin
    time_elapsed := 0
    state := (is0.1 * pi / 180, is0.2.1 * pi / 180,
              is0.2.2.1 * pi / 180, is0.2.2.2 * pi / 180) }

/-- `DoublePendulum.position`: the x/y coordinates of pivot, joint 1 and
joint 2, as running sums seeded with the origin.  `S`/`C` are sine/cosine. -/
def DoublePendulum.position {α : Type} [Field α] (S C : α → α)
    (p : DoublePendulum α) : (α × α × α) × (α × α × α) :=
  let (L1, L2, _M1, _M2, _G) := p.params
  let x := cumsum3 p.origin.1 (L1 * S p.state.1) (L2 * S p.state.2.2.1)
  let y := cumsum3 p.origin.2 (-(L1 * C p.state.1)) (-(L2 * C p.state.2.2.1))
  (x, y)

/-- A `position()` call viewed as a state transformer: the method body
contains no assignment to `self`, so its state-passing translation returns
the receiver unchanged alongside the coordinates. -/
def DoublePendulum.positionS {α : Type} [Field α] (S C : α → α)
    (p : DoublePendulum α) :
    ((α × α × α) × (α × α × α)) × DoublePendulum α :=
  (p.position S C, p)

/-- `DoublePendulum.energy`: the source's energy diagnostic, translated
term by term.  Note the kinetic term is
`0.5 * (M1 * np.dot(vx, vx) + M2 * np.dot(vy, vy))`: `M1` multiplies the
squared x-velocities of BOTH joints and `M2` the squared y-velocities of
both joints. -/
def DoublePendulum.energy {α : Type} [Field α] (S C : α → α)
    (p : DoublePendulum α) : α :=
  let (L1, L2, M1, M2, G) := p.params
  let s := p.state
  let _x := cumsum2 (L1 * S s.1) (L2 * S s.2.2.1)
  let y := cumsum2 (-(L1 * C s.1)) (-(L2 * C s.2.2.1))
  let vx := cumsum2 (L1 * s.2.1 * C s.1) (L2 * s.2.2.2 * C s.2.2.1)
  let vy := cumsum2 (L1 * s.2.1 * S s.1) (L2 * s.2.2.2 * S s.2.2.1)
  let u := G * (M1 * y.1 + M2 * y.2)
  let k := (1 / 2) * (M1 * (vx.1 * vx.1 + vx.2 * vx.2)
      + M2 * (vy.1 * vy.1 + vy.2 * vy.2))
  u + k

/-- The first denominator `den1` computed by `dstate_dt`, with the tuple
unpacked as the source unpacks it there: `(M1, M2, L1, L2, G) = self.params`. -/
def dstateDen1 {α : Type} [Field α] (C : α → α)
    (params : α × α × α × α × α) (st : α × α × α × α) : α :=
  let (M1, M2, L1, _L2, _G) := params
  let cd := C (st.2.2.1 - st.1)
  (M1 + M2) * L1 - M2 * L1 * cd * cd

/-- The second denominator `den2 = (L2 / L1) * den1` of `dstate_dt`, again
with the source's unpacking `(M1, M2, L1, L2, G) = self.params`. -/
def dstateDen2 {α : Type} [Field α] (C : α → α)
    (params : α × α × α × α × α) (st : α × α × α × α) : α :=
  let (_M1, _M2, L1, L2, _G) := params
  (L2 / L1) * dstateDen1 C params st

/-- `DoublePendulum.dstate_dt`: the right-hand side of the ODE, translated
term by term from the source.  The parameter tuple — stored by the
constructor as `(l1, l2, m1, m2, g)` — is unpacked here as
`(M1, M2, L1, L2, G)`, exactly as the source does. -/
def DoublePendulum.dstate_dt {α : Type} [Field α] (S C : α → α)
    (p : DoublePendulum α) (st : α × α × α × α) : α × α × α × α :=
  let (M1, M2, L1, L2, G) := p.params
  let (s0, s1, s2, s3) := st
  let cos_delta := C (s2 - s0)
  let sin_delta := S (s2 - s0)
  let den1 := dstateDen1 C p.params st
  let d1 := (M2 * L1 * s1 * s1 * sin_delta * cos_delta
      + M2 * G * S s2 * cos_delta
      + M2 * L2 * s3 * s3 * sin_delta
      - (M1 + M2) * G * S s0) / den1
  let den2 := dstateDen2 C p.params st
  let d3 := (-(M2 * L2 * s3 * s3 * sin_delta * cos_delta)
      + (M1 + M2) * G * S s0 * cos_delta
      - (M1 + M2) * L1 * s1 * s1 * sin_delta
      - (M1 + M2) * G * S s2) / den2
  (s1, d1, s3, d3)

/-- The standard closed-form double-pendulum accelerations as the spec
states them, with the parameter tuple read in the meaning the constructor
stores it: lengths first, then masses, then gravity, `(L1, L2, M1, M2, G)`.
Same algebraic form as the source's `dstate_dt`; only the binding of the
five tuple slots differs. -/
def specDeriv {α : Type} [Field α] (S C : α → α)
    (params : α × α × α × α × α) (st : α × α × α × α) : α × α × α × α :=
  let (L1, L2, M1, M2, G) := params
  let (s0, s1, s2, s3) := st
  let cos_delta := C (s2 - s0)
  let sin_delta := S (s2 - s0)
  let den1 := (M1 + M2) * L1 - M2 * L1 * cos_delta * cos_delta
  let d1 := (M2 * L1 * s1 * s1 * sin_delta * cos_delta
      + M2 * G * S s2 * cos_delta
      + M2 * L2 * s3 * s3 * sin_delta
      - (M1 + M2) * G * S s0) / den1
  let den2 := (L2 / L1) * den1
  let d3 := (-(M2 * L2 * s3 * s3 * sin_delta * cos_delta)
      + (M1 + M2) * G * S s0 * cos_delta
      - (M1 + M2) * L1 * s1 * s1 * sin_delta
      - (M1 + M2) * G * S s2) / den2
  (s1, d1, s3, d3)

/-- The per-joint kinetic-energy form of the energy, as the spec states it:
`U = G*(M1*y1 + M2*y2)` and `K = (1/2)*(M1*(vx1^2+vy1^2) + M2*(vx2^2+vy2^2))`,
with velocities the chain-rule derivatives of the joint positions and the
parameter tuple read in the stored meaning `(L1, L2, M1, M2, G)`. -/
def specEnergy {α : Type} [Field α] (S C : α → α)
    (p : DoublePendulum α) : α :=
  let (L1, L2, M1, M2, G) := p.params
  let s := p.state
  let y1 := -(L1 * C s.1)
  let y2 := y1 - L2 * C s.2.2.1
  let vx1 := L1 * s.2.1 * C s.1
  let vy1 := L1 * s.2.1 * S s.1
  let vx2 := vx1 + L2 * s.2.2.2 * C s.2.2.1
  let vy2 := vy1 + L2 * s.2.2.2 * S s.2.2.1
  G * (M1 * y1 + M2 * y2)
    + (1 / 2) * (M1 * (vx1 * vx1 + vy1 * vy1) + M2 * (vx2 * vx2 + vy2 * vy2))

/-- `DoublePendulum.step`: the external solver call
`integrate.odeint(self.dstate_dt, self.state, [0, dt])[1]` is abstracted as
`solver p dt`; the method then overwrites `state` with its result and
increments `time_elapsed` by `dt`, unconditionally. -/
def DoublePendulum.step {α : Type} [Field α]
    (solver : DoublePendulum α → α → α × α × α × α)
    (dt : α) (p : DoublePendulum α) : DoublePendulum α :=
  { p with state := solver p dt, time_elapsed := p.time_elapsed + dt }

/-- C10: omitting the initial state defaults it to [120, 0, -20, 0]
degrees, stored in radians as (120·π/180, 0, −20·π/180, 0), which differs
from the [180, 0, −20, 0] reference state (since π is not 0). -/
theorem init_default_state (l1 l2 m1 m2 g x0 y0 : ℝ) :
    (DoublePendulum.init Real.pi none l1 l2 m1 m2 g (x0, y0)).init_state
        = (120, 0, -20, 0)
    ∧ (DoublePendulum.init Real.pi none l1 l2 m1 m2 g (x0, y0)).state
        = (120 * Real.pi / 180, 0 * Real.pi / 180,
           -20 * Real.pi / 180, 0 * Real.pi / 180)
    ∧ 120 * Real.pi / 180 ≠ 180 * Real.pi / 180 := by
  refine ⟨rfl, rfl, fun h => Real.pi_ne_zero (by linarith)⟩

/-- C9: the constructor multiplies all four supplied state components by
π/180, the angular velocities included; and the rescaling is not the
identity (π/180 times 1 is not 1, since π is less than 180). -/
theorem init_scales_all_four (a b c d l1 l2 m1 m2 g x0 y0 : ℝ) :
    (DoublePendulum.init Real.pi (some (a, b, c, d)) l1 l2 m1 m2 g
        (x0, y0)).state
      = (a * Real.pi / 180, b * Real.pi / 180,
         c * Real.pi / 180, d * Real.pi / 180)
    ∧ (1 : ℝ) * Real.pi / 180 ≠ 1 := by
  refine ⟨rfl, fun h => ?_⟩
  have hpi := Real.pi_lt_d2
  linarith

/-- C3 counterexample: constructing with l1 = 0 (and otherwise default
parameters) does not fail — it produces a simulation object that stores the
non-positive length, so no InvalidParameter error is ever raised. -/
theorem init_zero_length_succeeds :
    (DoublePendulum.init (α := ℝ) Real.pi none 0 1 1 1 (98 / 10)
        (0, 0)).params = (0, 1, 1, 1, 98 / 10) := rfl

/-- C3 amended: the constructor performs no parameter validation at all —
for every parameter tuple, non-positive lengths and masses included, it
returns a simulation object storing exactly the given parameters. -/
theorem init_never_validates (l1 l2 m1 m2 g x0 y0 : ℝ)
    (istate : Option (ℝ × ℝ × ℝ × ℝ)) :
    (DoublePendulum.init Real.pi istate l1 l2 m1 m2 g (x0, y0)).params
      = (l1, l2, m1, m2, g) := rfl

/-- C5: position() returns exactly the three cumulative points
x = [x0, x0 + L1·sin θ1, x0 + L1·sin θ1 + L2·sin θ2] and
y = [y0, y0 − L1·cos θ1, y0 − L1·cos θ1 − L2·cos θ2], and — viewed as a
state transformer — leaves the simulation object unchanged. -/
theorem position_matches_spec (ist : ℝ × ℝ × ℝ × ℝ)
    (l1 l2 m1 m2 g x0 y0 te th1 om1 th2 om2 : ℝ) :
    (⟨ist, (l1, l2, m1, m2, g), (x0, y0), te,
        (th1, om1, th2, om2)⟩ : DoublePendulum ℝ).position Real.sin Real.cos
      = ((x0, x0 + l1 * Real.sin th1,
          x0 + l1 * Real.sin th1 + l2 * Real.sin th2),
         (y0, y0 - l1 * Real.cos th1,
          y0 - l1 * Real.cos th1 - l2 * Real.cos th2))
    ∧ (⟨ist, (l1, l2, m1, m2, g), (x0, y0), te,
        (th1, om1, th2, om2)⟩ : DoublePendulum ℝ).positionS Real.sin Real.cos
      = (((x0, x0 + l1 * Real.sin th1,
           x0 + l1 * Real.sin th1 + l2 * Real.sin th2),
          (y0, y0 - l1 * Real.cos th1,
           y0 - l1 * Real.cos th1 - l2 * Real.cos th2)),
         ⟨ist, (l1, l2, m1, m2, g), (x0, y0), te,
          (th1, om1, th2, om2)⟩) := by
  have h : (⟨ist, (l1, l2, m1, m2, g), (x0, y0), te,
      (th1, om1, th2, om2)⟩ : DoublePendulum ℝ).position Real.sin Real.cos
      = ((x0, x0 + l1 * Real.sin th1,
          x0 + l1 * Real.sin th1 + l2 * Real.sin th2),
         (y0, y0 - l1 * Real.cos th1,
          y0 - l1 * Real.cos th1 - l2 * Real.cos th2)) := by
    simp only [DoublePendulum.position, cumsum3]
    refine Prod.ext (Prod.ext rfl (Prod.ext (by ring) (by ring)))
      (Prod.ext rfl (Prod.ext (by ring) (by ring)))
  exact ⟨h, by simp only [DoublePendulum.positionS, h]⟩

/-- C7: the constructor converts the supplied degrees to radians, and with
the reference initial state [180, 0, −20, 0] the stored angles are θ1 = π
and θ2 = −20·π/180, so an immediate position() call returns the three
points those two angles determine. -/
theorem init_reference_state_position (l1 l2 m1 m2 g x0 y0 : ℝ) :
    (DoublePendulum.init Real.pi (some (180, 0, -20, 0)) l1 l2 m1 m2 g
        (x0, y0)).state
      = (Real.pi, 0, -20 * Real.pi / 180, 0)
    ∧ (DoublePendulum.init Real.pi (some (180, 0, -20, 0)) l1 l2 m1 m2 g
        (x0, y0)).position Real.sin Real.cos
      = ((x0, x0 + l1 * Real.sin Real.pi,
          x0 + l1 * Real.sin Real.pi + l2 * Real.sin (-20 * Real.pi / 180)),
         (y0, y0 - l1 * Real.cos Real.pi,
          y0 - l1 * Real.cos Real.pi
            - l2 * Real.cos (-20 * Real.pi / 180))) := by
  have h180 : (180 : ℝ) * Real.pi / 180 = Real.pi := by
    rw [mul_comm, mul_div_assoc]
    norm_num
  constructor
  · simp only [DoublePendulum.init, Option.getD]
    rw [h180]
    norm_num
  · simp only [DoublePendulum.init, Option.getD, DoublePendulum.position,
      cumsum3]
    rw [h180]
    refine Prod.ext (Prod.ext rfl (Prod.ext (by norm_num) (by norm_num)))
      (Prod.ext rfl (Prod.ext (by ring) (by ring)))

/-- C8: step(dt) adds exactly dt to the elapsed-time counter whatever the
solver does; the counter strictly increases exactly when dt is positive;
and after N steps of size dt from construction the elapsed time is N·dt. -/
theorem step_elapsed_time (solver : DoublePendulum ℝ → ℝ → ℝ × ℝ × ℝ × ℝ)
    (dt : ℝ) :
    (∀ p : DoublePendulum ℝ,
        (p.step solver dt).time_elapsed = p.time_elapsed + dt)
    ∧ (∀ p : DoublePendulum ℝ,
        0 < dt → p.time_elapsed < (p.step solver dt).time_elapsed)
    ∧ ∀ (N : ℕ) (istate : Option (ℝ × ℝ × ℝ × ℝ)) (l1 l2 m1 m2 g x0 y0 : ℝ),
        ((DoublePendulum.step solver dt)^[N]
            (DoublePendulum.init Real.pi istate l1 l2 m1 m2 g
              (x0, y0))).time_elapsed = (N : ℝ) * dt := by
  refine ⟨fun p => rfl, fun p h => ?_, fun N istate l1 l2 m1 m2 g x0 y0 => ?_⟩
  · show p.time_elapsed < p.time_elapsed + dt
    linarith
  · induction N with
    | zero => simp [DoublePendulum.init]
    | succ n ih =>
        rw [Function.iterate_succ_apply']
        show ((DoublePendulum.step solver dt)^[n]
            (DoublePendulum.init Real.pi istate l1 l2 m1 m2 g
              (x0, y0))).time_elapsed + dt = _
        rw [ih]
        push_cast
        ring

/-- Witness for C8: with a constant solver, dt = 1 and default parameters,
one step takes the counter from 0 to 0 + 1, the increase is strict, and
three steps reach 3·1. -/
theorem step_elapsed_time_witness :
    (0 : ℝ) < 1
    ∧ ((DoublePendulum.init Real.pi none 1 1 1 1 (98 / 10)
          ((0 : ℝ), 0)).step (fun _ _ => (0, 0, 0, 0)) 1).time_elapsed
        = (DoublePendulum.init Real.pi none 1 1 1 1 (98 / 10)
            ((0 : ℝ), 0)).time_elapsed + 1
    ∧ (DoublePendulum.init Real.pi none 1 1 1 1 (98 / 10)
          ((0 : ℝ), 0)).time_elapsed
        < ((DoublePendulum.init Real.pi none 1 1 1 1 (98 / 10)
            ((0 : ℝ), 0)).step (fun _ _ => (0, 0, 0, 0)) 1).time_elapsed
    ∧ ((DoublePendulum.step (fun _ _ => (0, 0, 0, 0)) 1)^[3]
          (DoublePendulum.init Real.pi none 1 1 1 1 (98 / 10)
            ((0 : ℝ), 0))).time_elapsed = ((3 : ℕ) : ℝ) * 1 :=
  ⟨by norm_num,
   (step_elapsed_time (fun _ _ => (0, 0, 0, 0)) 1).1 _,
   (step_elapsed_time (fun _ _ => (0, 0, 0, 0)) 1).2.1 _ (by norm_num),
   (step_elapsed_time (fun _ _ => (0, 0, 0, 0)) 1).2.2 3 none 1 1 1 1
     (98 / 10) 0 0⟩

/-- C1: at the stored parameter tuple (l1, l2, m1, m2, g) = (2, 1, 1, 1, 1)
and state (π/6, 0, π/2, 0), the source's dstate_dt returns α1 = −4/11,
whereas the standard closed-form equations for those parameters give
α1 = −1/7: because dstate_dt unpacks the tuple as (M1, M2, L1, L2, G), it
does not compute the standard accelerations for the stored parameters. -/
theorem dstate_dt_swapped_params_bug :
    ((⟨(0, 0, 0, 0), (2, 1, 1, 1, 1), (0, 0), 0,
        (0, 0, 0, 0)⟩ : DoublePendulum ℝ).dstate_dt Real.sin Real.cos
        (Real.pi / 6, 0, Real.pi / 2, 0)).2.1 = -(4 / 11)
    ∧ (specDeriv Real.sin Real.cos (2, 1, 1, 1, 1)
        (Real.pi / 6, 0, Real.pi / 2, 0)).2.1 = -(1 / 7)
    ∧ ((⟨(0, 0, 0, 0), (2, 1, 1, 1, 1), (0, 0), 0,
        (0, 0, 0, 0)⟩ : DoublePendulum ℝ).dstate_dt Real.sin Real.cos
        (Real.pi / 6, 0, Real.pi / 2, 0)).2.1
      ≠ (specDeriv Real.sin Real.cos (2, 1, 1, 1, 1)
        (Real.pi / 6, 0, Real.pi / 2, 0)).2.1 := by
  have hd : Real.pi / 2 - Real.pi / 6 = Real.pi / 3 := by ring
  have h1 : ((⟨(0, 0, 0, 0), (2, 1, 1, 1, 1), (0, 0), 0,
      (0, 0, 0, 0)⟩ : DoublePendulum ℝ).dstate_dt Real.sin Real.cos
      (Real.pi / 6, 0, Real.pi / 2, 0)).2.1 = -(4 / 11) := by
    simp only [DoublePendulum.dstate_dt, dstateDen1, dstateDen2]
    rw [hd]
    rw [Real.sin_pi_div_six, Real.sin_pi_div_two, Real.cos_pi_div_three]
    norm_num
  have h2 : (specDeriv Real.sin Real.cos (2, 1, 1, 1, 1)
      (Real.pi / 6, 0, Real.pi / 2, 0)).2.1 = -(1 / 7) := by
    simp only [specDeriv]
    rw [hd]
    rw [Real.sin_pi_div_six, Real.sin_pi_div_two, Real.cos_pi_div_three]
    norm_num
  refine ⟨h1, h2, ?_⟩
  rw [h1, h2]
  norm_num

/-- C2: with the second mass m2 = 0 (parameters (l1, l2, m1, m2, g) =
(1, 2, 1, 0, 1)) and state (π/6, 0, π/2, 0), the divisor den2 used for α2
is exactly 0 — dstate_dt binds L2 to the stored m2, so α2 is computed by a
division by zero — and α1 comes out as −1/5 where the simple-pendulum law
θ1'' = −(G/L1)·sin θ1 gives −1/2. -/
theorem dstate_dt_m2_zero_bug :
    dstateDen2 Real.cos (1, 2, 1, 0, 1) (Real.pi / 6, 0, Real.pi / 2, 0) = 0
    ∧ ((⟨(0, 0, 0, 0), (1, 2, 1, 0, 1), (0, 0), 0,
        (0, 0, 0, 0)⟩ : DoublePendulum ℝ).dstate_dt Real.sin Real.cos
        (Real.pi / 6, 0, Real.pi / 2, 0)).2.1 = -(1 / 5)
    ∧ -(1 / 1) * Real.sin (Real.pi / 6) = -(1 / 2)
    ∧ ((⟨(0, 0, 0, 0), (1, 2, 1, 0, 1), (0, 0), 0,
        (0, 0, 0, 0)⟩ : DoublePendulum ℝ).dstate_dt Real.sin Real.cos
        (Real.pi / 6, 0, Real.pi / 2, 0)).2.1
      ≠ -(1 / 1) * Real.sin (Real.pi / 6) := by
  have hd : Real.pi / 2 - Real.pi / 6 = Real.pi / 3 := by ring
  have h1 : ((⟨(0, 0, 0, 0), (1, 2, 1, 0, 1), (0, 0), 0,
      (0, 0, 0, 0)⟩ : DoublePendulum ℝ).dstate_dt Real.sin Real.cos
      (Real.pi / 6, 0, Real.pi / 2, 0)).2.1 = -(1 / 5) := by
    simp only [DoublePendulum.dstate_dt, dstateDen1, dstateDen2]
    rw [hd]
    rw [Real.sin_pi_div_six, Real.sin_pi_div_two, Real.cos_pi_div_three]
    norm_num
  have h3 : -(1 / 1 : ℝ) * Real.sin (Real.pi / 6) = -(1 / 2) := by
    rw [Real.sin_pi_div_six]
    norm_num
  refine ⟨?_, h1, h3, ?_⟩
  · simp only [dstateDen2]
    norm_num
  · rw [h1, h3]
    norm_num

/-- C6: at parameters (l1, l2, m1, m2, g) = (1, 1, 1, 3, 1) and state
(0, 1, π/2, 0), energy() returns −3 while the per-joint kinetic grouping
U + (1/2)·(M1·(vx1²+vy1²) + M2·(vx2²+vy2²)) gives −2: the source instead
multiplies M1 by both squared x-velocities and M2 by both squared
y-velocities (0.5·(M1·dot(vx,vx) + M2·dot(vy,vy))). -/
theorem energy_mass_grouping_bug :
    (⟨(0, 0, 0, 0), (1, 1, 1, 3, 1), (0, 0), 0,
        (0, 1, Real.pi / 2, 0)⟩ : DoublePendulum ℝ).energy Real.sin Real.cos
      = -3
    ∧ specEnergy Real.sin Real.cos
        (⟨(0, 0, 0, 0), (1, 1, 1, 3, 1), (0, 0), 0,
          (0, 1, Real.pi / 2, 0)⟩ : DoublePendulum ℝ) = -2
    ∧ (⟨(0, 0, 0, 0), (1, 1, 1, 3, 1), (0, 0), 0,
        (0, 1, Real.pi / 2, 0)⟩ : DoublePendulum ℝ).energy Real.sin Real.cos
      ≠ specEnergy Real.sin Real.cos
        (⟨(0, 0, 0, 0), (1, 1, 1, 3, 1), (0, 0), 0,
          (0, 1, Real.pi / 2, 0)⟩ : DoublePendulum ℝ) := by
  have h1 : (⟨(0, 0, 0, 0), (1, 1, 1, 3, 1), (0, 0), 0,
      (0, 1, Real.pi / 2, 0)⟩ : DoublePendulum ℝ).energy Real.sin Real.cos
      = -3 := by
    simp only [DoublePendulum.energy, cumsum2]
    rw [Real.sin_zero, Real.cos_zero, Real.sin_pi_div_two,
      Real.cos_pi_div_two]
    norm_num
  have h2 : specEnergy Real.sin Real.cos
      (⟨(0, 0, 0, 0), (1, 1, 1, 3, 1), (0, 0), 0,
        (0, 1, Real.pi / 2, 0)⟩ : DoublePendulum ℝ) = -2 := by
    simp only [specEnergy]
    rw [Real.sin_zero, Real.cos_zero, Real.sin_pi_div_two,
      Real.cos_pi_div_two]
    norm_num
  refine ⟨h1, h2, ?_⟩
  rw [h1, h2]
  norm_num
